import Mathlib

/-!
# The C facade of the Toggl Desktop engine (`src/toggl_api.cc`)

A shallow embedding of the facade functions of `toggl_api.cc`.

* A C pointer is an `Option`: `none` is the null pointer.
* `char_t` strings and `std::string` are both `String`; `uint64_t` is `Nat`,
  `int64_t` and `int` are `Int` (the facade does no arithmetic on them).
* The engine (`toggl::Context`, its `UI()` object, `toggl::Formatter`, the root logger)
  is not part of the file.  Every method the facade calls on it is a constructor of `Call`;
  the engine itself is a parameter (`Platform.engine`) that answers each call, and every
  call is recorded, with its answer, in `World.trace`.
* A facade function is a state transformer over `World` that either returns a value or
  aborts (`Abort`): the Poco assertion macros do not return to the caller.
* In a statement `app(context)->Method(to_string(x), ...)` the handle is taken first and the
  arguments are converted left to right.  The order only shows when the handle and a text
  argument are both null; no theorem below depends on it.
* Memory management of C strings (`free`) is not modelled.
-/

namespace Toggl

/-! ## Data model -/

/-- The address of one engine instance, a non-null `toggl::Context *`. -/
abbrev Handle := Nat

/-- A C pointer to a value: `none` is the null pointer. -/
abbrev Ptr (α : Type) := Option α

/-- A UI callback (a C function pointer), identified by its address. -/
abbrev Callback := Nat

/-- The ways a facade call can end without returning. -/
inductive Abort where
  /-- A failed `poco_check_ptr` (`Poco::Bugcheck::nullPointer`). -/
  | nullPointer
  /-- A failed `poco_assert` (`Poco::Bugcheck::assertion`). -/
  | assertion
  /-- The characters behind a null `char_t *` were read: undefined behaviour. -/
  | undefinedBehaviour
  deriving DecidableEq, Repr

/-- The value object `toggl::Settings`, with the five fields the facade assigns. -/
structure Settings where
  use_idle_detection : Bool
  menubar_timer : Bool
  dock_icon : Bool
  on_top : Bool
  reminder : Bool
  deriving DecidableEq, Repr

/-- The value object `toggl::Proxy`, with the four fields the facade assigns. -/
structure Proxy where
  host : String
  port : Nat
  username : String
  password : String
  deriving DecidableEq, Repr

/-- The value object `toggl::Feedback(topic, details, filename)`. -/
structure Feedback where
  topic : String
  details : String
  filename : String
  deriving DecidableEq, Repr

/-- What the facade reads of a `toggl::Project`: `ID()` and `GUID()`. -/
structure Project where
  ID : Nat
  GUID : String
  deriving DecidableEq, Repr

/-- The 17 event kinds of the UI object, named after its `OnDisplay...` setters. -/
inductive EventKind where
  | App | Error | Update | OnlineState | URL | Login | Reminder
  | WorkspaceSelect | ClientSelect | Tags | TimeEntryList
  | TimeEntryAutocomplete | ProjectAutocomplete | TimeEntryEditor
  | Settings | TimerState | IdleNotification
  deriving DecidableEq, Repr

/-- Every operation of the engine and its collaborators that the facade invokes, with the
arguments passed.  The first group are methods of `toggl::Context` (called on a handle),
`UI_...` are methods of the object returned by `Context::UI()`, the last group is static. -/
inductive Call where
  | StartEvents
  | UI_DisplayURL (url : String)
  | SetQuit
  | Shutdown
  /-- The instance is released: `delete`. -/
  | Delete
  | SetSettings (settings : Settings)
  | SetProxySettings (use_proxy : Bool) (proxy : Proxy)
  | SetDBPath (path : String)
  | SetEnvironment (environment : String)
  | Environment
  | DisableUpdateCheck
  | SetAPIURL (url : String)
  | SetTimelineUploadURL (url : String)
  | SetWebSocketClientURL (url : String)
  | Login (email password : String)
  | GoogleLogin (access_token : String)
  | Logout
  | ClearCache
  | Sync
  | AddProject (workspace_id client_id : Nat) (project_name : String) (is_private : Bool)
  | Start (description duration : String) (task_id project_id : Nat)
  | Continue (guid : String)
  | DisplayTimeEntryList (open_list : Bool)
  | Edit (guid : String) (edit_running_entry : Bool) (focused_field_name : String)
  | About
  | DisplaySettings (open_settings : Bool)
  | ContinueLatest
  | DeleteTimeEntryByGUID (guid : String)
  | SetTimeEntryDuration (guid value : String)
  | SetTimeEntryProject (guid : String) (task_id project_id : Nat) (project_guid : String)
  | SetTimeEntryDate (guid : String) (unix_timestamp : Int)
  | SetTimeEntryStart (guid value : String)
  | SetTimeEntryStop (guid value : String)
  | SetTimeEntryStartISO8601 (guid value : String)
  | SetTimeEntryEndISO8601 (guid value : String)
  | SetTimeEntryTags (guid value : String)
  | SetTimeEntryBillable (guid : String) (value : Bool)
  | SetTimeEntryDescription (guid value : String)
  | Stop
  | DiscardTimeAt (guid : String) (at_time : Nat)
  | ToggleTimelineRecording (record_timeline : Bool)
  | IsTimelineRecordingEnabled
  | SendFeedback (feedback : Feedback)
  | SaveUpdateChannel (update_channel : String)
  /-- The method `UpdateChannel(&update_channel)`; the argument is the string's value before. -/
  | UpdateChannel (update_channel : String)
  /-- The setter `UI()->OnDisplay<kind>(cb)`. -/
  | UI_OnDisplay (kind : EventKind) (cb : Callback)
  | SetSleep
  | SetWake
  | SetOnline
  | OpenReportsInBrowser
  | SetIdleSeconds (idle_seconds : Nat)
  /-- The constructor `new toggl::Context(app_name, app_version)`. -/
  | NewContext (app_name app_version : String)
  /-- The static method `toggl::Context::SetLogPath`. -/
  | Context_SetLogPath (path : String)
  /-- The call `rootLogger().setLevel(level)`. -/
  | RootLogger_setLevel (level : String)
  /-- The static `toggl::Formatter::ParseTimeInput(input, hours, minutes)`; `hours` and
  `minutes` are the values behind the two pointers before the call. -/
  | Formatter_ParseTimeInput (input : String) (hours minutes : Int)
  | Formatter_FormatDurationInSecondsHHMMSS (duration_in_seconds : Int)
  | Formatter_FormatDurationInSecondsHHMM (duration_in_seconds : Int)
  | Formatter_ParseDurationString (duration_string : String)

/-- The type of what each call gives back: its return value, together with the values it
leaves behind its output pointers. -/
@[reducible] def Call.Reply : Call → Type
  | .StartEvents => Bool
  | .SetSettings _ => Bool
  | .SetProxySettings _ _ => Bool
  | .SetDBPath _ => Bool
  | .Environment => String
  | .Login _ _ => Bool
  | .GoogleLogin _ => Bool
  | .Logout => Bool
  | .ClearCache => Bool
  | .AddProject _ _ _ _ => Bool × Ptr Project
  | .Start _ _ _ _ => Bool
  | .Continue _ => Bool
  | .ContinueLatest => Bool
  | .DeleteTimeEntryByGUID _ => Bool
  | .SetTimeEntryDuration _ _ => Bool
  | .SetTimeEntryProject _ _ _ _ => Bool
  | .SetTimeEntryDate _ _ => Bool
  | .SetTimeEntryStart _ _ => Bool
  | .SetTimeEntryStop _ _ => Bool
  | .SetTimeEntryStartISO8601 _ _ => Bool
  | .SetTimeEntryEndISO8601 _ _ => Bool
  | .SetTimeEntryTags _ _ => Bool
  | .SetTimeEntryBillable _ _ => Bool
  | .SetTimeEntryDescription _ _ => Bool
  | .Stop => Bool
  | .DiscardTimeAt _ _ => Bool
  | .ToggleTimelineRecording _ => Bool
  | .IsTimelineRecordingEnabled => Bool
  | .SendFeedback _ => Bool
  | .SaveUpdateChannel _ => Bool
  | .UpdateChannel _ => Bool × String
  | .NewContext _ _ => Handle
  | .Formatter_ParseTimeInput _ _ _ => Bool × Int × Int
  | .Formatter_FormatDurationInSecondsHHMMSS _ => String
  | .Formatter_FormatDurationInSecondsHHMM _ => String
  | .Formatter_ParseDurationString _ => Int
  | _ => Unit

/-- One recorded invocation: the instance it was invoked on (`none` for a static call or
a constructor), the call, and what it gave back. -/
structure Event where
  target : Option Handle
  call : Call
  reply : call.Reply

/-- Severity of a line written to the `toggl_api` logger. -/
inductive Level where
  | debug | error
  deriving DecidableEq, Repr

/-- The state a facade call runs in. -/
structure World (σ : Type) where
  /-- State of the engine and its collaborators. -/
  eng : σ
  /-- Engine operations invoked so far, oldest first. -/
  trace : List Event
  /-- Lines written to the `toggl_api` logger so far, oldest first. -/
  log : List (Level × String)
  /-- The global `toggl::HTTPSClientConfig::CACertPath`. -/
  CACertPath : String

/-- What the facade is compiled and linked against: the engine that answers the calls,
the URL constants and the compiled sizes of the four view structs (each already converted
to `int`, as in `int size = sizeof(...)`). -/
structure Platform (σ : Type) where
  engine : Option Handle → (c : Call) → σ → c.Reply × σ
  kAPIURL : String
  kTimelineUploadURL : String
  kWebSocketURL : String
  kLostPasswordURL : String
  kSupportURL : String
  sizeof_TogglTimeEntryView : Int
  sizeof_TogglAutocompleteView : Int
  sizeof_TogglGenericView : Int
  sizeof_TogglSettingsView : Int

/-! ## The monad of facade calls -/

/-- A facade computation: from a world to a result, or an abort, and the world it leaves. -/
def M (σ α : Type) : Type := World σ → Except Abort α × World σ

/-- Return a value, world unchanged. -/
def M.pure {σ α : Type} (a : α) : M σ α := fun w => (.ok a, w)

/-- Sequencing: an abort of the first part ends the computation. -/
def M.bind {σ α β : Type} (m : M σ α) (f : α → M σ β) : M σ β := fun w =>
  match m w with
  | (.ok a, w') => f a w'
  | (.error e, w') => (.error e, w')

instance (σ : Type) : Monad (M σ) where
  pure := M.pure
  bind := M.bind

/-- End the computation with an abort. -/
def abort {σ α : Type} (e : Abort) : M σ α := fun w => (.error e, w)

/-- Modelled from the spec: the macro `poco_check_ptr` of `Poco/Bugcheck.h` is not in the
sources; a null required pointer is a fatal contract violation, so control does not come back
(Poco throws `NullPointerException`).  On a non-null pointer it yields the pointee. -/
def poco_check_ptr {σ α : Type} (p : Ptr α) : M σ α :=
  match p with
  | some a => M.pure a
  | none => abort .nullPointer

/-- Modelled from the spec: the macro `poco_assert` of `Poco/Bugcheck.h` is not in the
sources; a failed assertion is fatal, so control does not come back (Poco throws
`AssertionViolationException`). -/
def poco_assert {σ : Type} (cond : Bool) : M σ Unit :=
  if cond then M.pure () else abort .assertion

/-- Reading the characters behind a `char_t *` (string construction, stream insertion):
undefined behaviour on the null pointer. -/
def c_str {σ : Type} (s : Ptr String) : M σ String :=
  match s with
  | some v => M.pure v
  | none => abort .undefinedBehaviour

/-- Modelled from the spec: `to_string` of `toggl_api_private` is not in the sources; it
copies caller-owned text into an engine string, reading the characters behind the pointer. -/
def to_string {σ : Type} (s : Ptr String) : M σ String := c_str s

/-- Modelled from the spec: `copy_string` of `toggl_api_private` is not in the sources; it
allocates a new caller-owned buffer and copies the engine text into it, so it is never null. -/
def copy_string (s : String) : Ptr String := some s

/-- The call `logger().debug(msg)`. -/
def logger_debug {σ : Type} (msg : String) : M σ Unit := fun w =>
  (.ok (), { w with log := w.log ++ [(Level.debug, msg)] })

/-- The call `logger().error(msg)`. -/
def logger_error {σ : Type} (msg : String) : M σ Unit := fun w =>
  (.ok (), { w with log := w.log ++ [(Level.error, msg)] })

/-- Invoke an engine operation: the engine answers and moves on, the trace records it. -/
def invoke {σ : Type} (P : Platform σ) (target : Option Handle) (c : Call) : M σ c.Reply :=
  fun w =>
    let r := P.engine target c w.eng
    (.ok r.1, { w with eng := r.2, trace := w.trace ++ [⟨target, c, r.1⟩] })

/-- Stream insertion of a `_Bool` (no `boolalpha`). -/
def show_bool (b : Bool) : String := if b then "1" else "0"

/-! ## The facade (`toggl_api.cc`) -/

/-- The helper `app(context)`: the handle as an engine instance, asserted non-null. -/
def app {σ : Type} (context : Ptr Handle) : M σ Handle := do
  let c ← poco_check_ptr context
  pure c

/-- The function `toggl_context_init`. -/
def toggl_context_init {σ : Type} (P : Platform σ) (app_name app_version : Ptr String) :
    M σ (Ptr Handle) := do
  let _ ← poco_check_ptr app_name
  let _ ← poco_check_ptr app_version
  let name ← to_string app_name
  let version ← to_string app_version
  let ctx ← invoke P none (.NewContext name version)
  invoke P (some ctx) (.SetAPIURL P.kAPIURL)
  invoke P (some ctx) (.SetTimelineUploadURL P.kTimelineUploadURL)
  invoke P (some ctx) (.SetWebSocketClientURL P.kWebSocketURL)
  pure (some ctx)

/-- The function `toggl_ui_start`. -/
def toggl_ui_start {σ : Type} (P : Platform σ) (context : Ptr Handle) : M σ Bool := do
  let c ← app context
  invoke P (some c) .StartEvents

/-- The function `toggl_password_forgot`. -/
def toggl_password_forgot {σ : Type} (P : Platform σ) (context : Ptr Handle) : M σ Unit := do
  let c ← app context
  invoke P (some c) (.UI_DisplayURL P.kLostPasswordURL)

/-- The function `toggl_context_clear`. -/
def toggl_context_clear {σ : Type} (P : Platform σ) (context : Ptr Handle) : M σ Unit := do
  if context.isSome then
    let c ← app context
    invoke P (some c) .SetQuit
    let c ← app context
    invoke P (some c) .Shutdown
  let c ← app context
  invoke P (some c) .Delete

/-- The function `toggl_set_settings`. -/
def toggl_set_settings {σ : Type} (P : Platform σ) (context : Ptr Handle)
    (use_idle_detection menubar_timer dock_icon on_top reminder : Bool) : M σ Bool := do
  let settings : Settings :=
    { use_idle_detection := use_idle_detection
      menubar_timer := menubar_timer
      dock_icon := dock_icon
      on_top := on_top
      reminder := reminder }
  let c ← app context
  invoke P (some c) (.SetSettings settings)

/-- The function `toggl_set_proxy_settings`. -/
def toggl_set_proxy_settings {σ : Type} (P : Platform σ) (context : Ptr Handle)
    (use_proxy : Bool) (proxy_host : Ptr String) (proxy_port : Nat)
    (proxy_username proxy_password : Ptr String) : M σ Bool := do
  let _ ← poco_check_ptr proxy_host
  let _ ← poco_check_ptr proxy_username
  let _ ← poco_check_ptr proxy_password
  let host ← to_string proxy_host
  let username ← to_string proxy_username
  let password ← to_string proxy_password
  let proxy : Proxy :=
    { host := host, port := proxy_port, username := username, password := password }
  let c ← app context
  invoke P (some c) (.SetProxySettings use_proxy proxy)

/-- The function `toggl_set_cacert_path`: the handle is not used. -/
def toggl_set_cacert_path {σ : Type} (_context : Ptr Handle) (path : Ptr String) :
    M σ Unit := do
  let _ ← poco_check_ptr path
  let v ← to_string path
  fun w => (.ok (), { w with CACertPath := v })

/-- The function `toggl_set_db_path`. -/
def toggl_set_db_path {σ : Type} (P : Platform σ) (context : Ptr Handle) (path : Ptr String) :
    M σ Bool := do
  let _ ← poco_check_ptr path
  let c ← app context
  let v ← to_string path
  invoke P (some c) (.SetDBPath v)

/-- The function `toggl_set_environment`. -/
def toggl_set_environment {σ : Type} (P : Platform σ) (context : Ptr Handle)
    (environment : Ptr String) : M σ Unit := do
  let _ ← poco_check_ptr environment
  let c ← app context
  let v ← to_string environment
  invoke P (some c) (.SetEnvironment v)

/-- The function `toggl_environment`. -/
def toggl_environment {σ : Type} (P : Platform σ) (context : Ptr Handle) :
    M σ (Ptr String) := do
  let c ← app context
  let e ← invoke P (some c) .Environment
  pure (copy_string e)

/-- The function `toggl_disable_update_check`. -/
def toggl_disable_update_check {σ : Type} (P : Platform σ) (context : Ptr Handle) :
    M σ Unit := do
  let c ← app context
  invoke P (some c) .DisableUpdateCheck

/-- The function `toggl_set_log_path`. -/
def toggl_set_log_path {σ : Type} (P : Platform σ) (path : Ptr String) : M σ Unit := do
  let _ ← poco_check_ptr path
  let v ← to_string path
  invoke P none (.Context_SetLogPath v)

/-- The function `toggl_set_log_level`. -/
def toggl_set_log_level {σ : Type} (P : Platform σ) (level : Ptr String) : M σ Unit := do
  let _ ← poco_check_ptr level
  let v ← to_string level
  invoke P none (.RootLogger_setLevel v)

/-- The function `toggl_set_api_url`. -/
def toggl_set_api_url {σ : Type} (P : Platform σ) (context : Ptr Handle)
    (api_url : Ptr String) : M σ Unit := do
  let _ ← poco_check_ptr api_url
  let c ← app context
  let v ← to_string api_url
  invoke P (some c) (.SetAPIURL v)

/-- The function `toggl_set_websocket_url`. -/
def toggl_set_websocket_url {σ : Type} (P : Platform σ) (context : Ptr Handle)
    (websocket_url : Ptr String) : M σ Unit := do
  let _ ← poco_check_ptr websocket_url
  let c ← app context
  let v ← to_string websocket_url
  invoke P (some c) (.SetWebSocketClientURL v)

/-- The function `toggl_login`. -/
def toggl_login {σ : Type} (P : Platform σ) (context : Ptr Handle)
    (email password : Ptr String) : M σ Bool := do
  let _ ← poco_check_ptr email
  let _ ← poco_check_ptr password
  let c ← app context
  let e ← to_string email
  let pw ← to_string password
  invoke P (some c) (.Login e pw)

/-- The function `toggl_google_login`. -/
def toggl_google_login {σ : Type} (P : Platform σ) (context : Ptr Handle)
    (access_token : Ptr String) : M σ Bool := do
  let _ ← poco_check_ptr access_token
  let c ← app context
  let t ← to_string access_token
  invoke P (some c) (.GoogleLogin t)

/-- The function `toggl_logout`. -/
def toggl_logout {σ : Type} (P : Platform σ) (context : Ptr Handle) : M σ Bool := do
  logger_debug "toggl_logout"
  let c ← app context
  invoke P (some c) .Logout

/-- The function `toggl_clear_cache`. -/
def toggl_clear_cache {σ : Type} (P : Platform σ) (context : Ptr Handle) : M σ Bool := do
  logger_debug "toggl_clear_cache"
  let c ← app context
  invoke P (some c) .ClearCache

/-- The function `toggl_sync`. -/
def toggl_sync {σ : Type} (P : Platform σ) (context : Ptr Handle) : M σ Unit := do
  logger_debug "toggl_sync"
  let c ← app context
  invoke P (some c) .Sync

/-- The function `toggl_set_time_entry_project`. -/
def toggl_set_time_entry_project {σ : Type} (P : Platform σ) (context : Ptr Handle)
    (guid : Ptr String) (task_id project_id : Nat) (project_guid : Ptr String) :
    M σ Bool := do
  let _ ← poco_check_ptr guid
  let pguid ← if project_guid.isSome then to_string project_guid else pure ""
  let c ← app context
  let g ← to_string guid
  invoke P (some c) (.SetTimeEntryProject g task_id project_id pguid)

/-- The function `toggl_add_project`. -/
def toggl_add_project {σ : Type} (P : Platform σ) (context : Ptr Handle)
    (time_entry_guid : Ptr String) (workspace_id client_id : Nat)
    (project_name : Ptr String) (is_private : Bool) : M σ Bool := do
  let _ ← poco_check_ptr time_entry_guid
  let c ← app context
  let name ← to_string project_name
  let r ← invoke P (some c) (.AddProject workspace_id client_id name is_private)
  if !r.1 then
    pure false
  else
    let p ← poco_check_ptr r.2
    let guid_s := copy_string p.GUID
    let res ← toggl_set_time_entry_project P context time_entry_guid 0 p.ID guid_s
    pure res

/-- The function `toggl_parse_time`.  The two output pointers are `hours` and `minutes`
(`some v`: a pointer to an `int` holding `v`); the result is the return value together with
the values left in `*hours` and `*minutes`. -/
def toggl_parse_time {σ : Type} (P : Platform σ) (input : Ptr String)
    (hours minutes : Ptr Int) : M σ (Bool × Int × Int) := do
  let _ ← poco_check_ptr hours
  let _ ← poco_check_ptr minutes
  let h : Int := 0
  let m : Int := 0
  if input.isNone then
    pure (true, h, m)
  else
    let v ← to_string input
    invoke P none (.Formatter_ParseTimeInput v h m)

/-- The function `toggl_format_duration_in_seconds_hhmmss`. -/
def toggl_format_duration_in_seconds_hhmmss {σ : Type} (P : Platform σ)
    (duration_in_seconds : Int) : M σ (Ptr String) := do
  let formatted ← invoke P none (.Formatter_FormatDurationInSecondsHHMMSS duration_in_seconds)
  pure (copy_string formatted)

/-- The function `toggl_format_duration_in_seconds_hhmm`. -/
def toggl_format_duration_in_seconds_hhmm {σ : Type} (P : Platform σ)
    (duration_in_seconds : Int) : M σ (Ptr String) := do
  let formatted ← invoke P none (.Formatter_FormatDurationInSecondsHHMM duration_in_seconds)
  pure (copy_string formatted)

/-- The function `toggl_start`. -/
def toggl_start {σ : Type} (P : Platform σ) (context : Ptr Handle)
    (description duration : Ptr String) (task_id project_id : Nat) : M σ Bool := do
  logger_debug "toggl_start"
  let desc ← if description.isSome then to_string description else pure ""
  let dur ← if duration.isSome then to_string duration else pure ""
  let c ← app context
  invoke P (some c) (.Start desc dur task_id project_id)

/-- The function `toggl_continue`. -/
def toggl_continue {σ : Type} (P : Platform σ) (context : Ptr Handle) (guid : Ptr String) :
    M σ Bool := do
  let _ ← poco_check_ptr guid
  let g ← c_str guid
  logger_debug ("toggl_continue guid=" ++ g)
  let c ← app context
  let v ← to_string guid
  invoke P (some c) (.Continue v)

/-- The function `toggl_view_time_entry_list`. -/
def toggl_view_time_entry_list {σ : Type} (P : Platform σ) (context : Ptr Handle) :
    M σ Unit := do
  let c ← app context
  invoke P (some c) (.DisplayTimeEntryList true)

/-- The function `toggl_edit`. -/
def toggl_edit {σ : Type} (P : Platform σ) (context : Ptr Handle) (guid : Ptr String)
    (edit_running_entry : Bool) (focused_field_name : Ptr String) : M σ Unit := do
  let _ ← poco_check_ptr guid
  let _ ← poco_check_ptr focused_field_name
  let g ← c_str guid
  let f ← c_str focused_field_name
  logger_debug ("toggl_edit guid=" ++ g
    ++ ", edit_running_entry = " ++ show_bool edit_running_entry
    ++ ", focused_field_name = " ++ f)
  let c ← app context
  let gv ← to_string guid
  let fv ← to_string focused_field_name
  invoke P (some c) (.Edit gv edit_running_entry fv)

/-- The function `toggl_about`. -/
def toggl_about {σ : Type} (P : Platform σ) (context : Ptr Handle) : M σ Unit := do
  let c ← app context
  invoke P (some c) .About

/-- The function `toggl_edit_preferences`. -/
def toggl_edit_preferences {σ : Type} (P : Platform σ) (context : Ptr Handle) :
    M σ Unit := do
  let c ← app context
  invoke P (some c) (.DisplaySettings true)

/-- The function `toggl_continue_latest`. -/
def toggl_continue_latest {σ : Type} (P : Platform σ) (context : Ptr Handle) :
    M σ Bool := do
  logger_debug "toggl_continue_latest"
  let c ← app context
  invoke P (some c) .ContinueLatest

/-- The function `toggl_delete_time_entry`. -/
def toggl_delete_time_entry {σ : Type} (P : Platform σ) (context : Ptr Handle)
    (guid : Ptr String) : M σ Bool := do
  let _ ← poco_check_ptr guid
  let g ← c_str guid
  logger_debug ("toggl_delete_time_entry guid=" ++ g)
  let c ← app context
  let v ← to_string guid
  invoke P (some c) (.DeleteTimeEntryByGUID v)

/-- The function `toggl_set_time_entry_duration`. -/
def toggl_set_time_entry_duration {σ : Type} (P : Platform σ) (context : Ptr Handle)
    (guid value : Ptr String) : M σ Bool := do
  let _ ← poco_check_ptr guid
  let _ ← poco_check_ptr value
  let g ← c_str guid
  let v ← c_str value
  logger_debug ("toggl_set_time_entry_duration guid=" ++ g ++ ", value=" ++ v)
  let c ← app context
  let gs ← to_string guid
  let vs ← to_string value
  invoke P (some c) (.SetTimeEntryDuration gs vs)

/-- The function `toggl_set_time_entry_date`. -/
def toggl_set_time_entry_date {σ : Type} (P : Platform σ) (context : Ptr Handle)
    (guid : Ptr String) (unix_timestamp : Int) : M σ Bool := do
  let _ ← poco_check_ptr guid
  let g ← c_str guid
  logger_debug ("toggl_set_time_entry_date guid=" ++ g
    ++ ", unix_timestamp=" ++ toString unix_timestamp)
  let c ← app context
  let gs ← to_string guid
  invoke P (some c) (.SetTimeEntryDate gs unix_timestamp)

/-- The function `toggl_set_time_entry_start`. -/
def toggl_set_time_entry_start {σ : Type} (P : Platform σ) (context : Ptr Handle)
    (guid value : Ptr String) : M σ Bool := do
  let _ ← poco_check_ptr guid
  let _ ← poco_check_ptr value
  let g ← c_str guid
  let v ← c_str value
  logger_debug ("toggl_set_time_entry_start guid=" ++ g ++ ", value=" ++ v)
  let c ← app context
  let gs ← to_string guid
  let vs ← to_string value
  invoke P (some c) (.SetTimeEntryStart gs vs)

/-- The function `toggl_set_time_entry_end`. -/
def toggl_set_time_entry_end {σ : Type} (P : Platform σ) (context : Ptr Handle)
    (guid value : Ptr String) : M σ Bool := do
  let _ ← poco_check_ptr guid
  let _ ← poco_check_ptr value
  let g ← c_str guid
  let v ← c_str value
  logger_debug ("toggl_set_time_entry_end guid=" ++ g ++ ", value=" ++ v)
  let c ← app context
  let gs ← to_string guid
  let vs ← to_string value
  invoke P (some c) (.SetTimeEntryStop gs vs)

/-- The function `toggl_set_time_entry_start_iso_8601`. -/
def toggl_set_time_entry_start_iso_8601 {σ : Type} (P : Platform σ) (context : Ptr Handle)
    (guid value : Ptr String) : M σ Bool := do
  let _ ← poco_check_ptr guid
  let _ ← poco_check_ptr value
  let g ← c_str guid
  let v ← c_str value
  logger_debug ("toggl_set_time_entry_start_iso_8601 guid=" ++ g ++ ", value=" ++ v)
  let c ← app context
  let gs ← to_string guid
  let vs ← to_string value
  invoke P (some c) (.SetTimeEntryStartISO8601 gs vs)

/-- The function `toggl_set_time_entry_end_iso_8601`. -/
def toggl_set_time_entry_end_iso_8601 {σ : Type} (P : Platform σ) (context : Ptr Handle)
    (guid value : Ptr String) : M σ Bool := do
  let _ ← poco_check_ptr guid
  let _ ← poco_check_ptr value
  let g ← c_str guid
  let v ← c_str value
  logger_debug ("toggl_set_time_entry_end_iso_8601 guid=" ++ g ++ ", value=" ++ v)
  let c ← app context
  let gs ← to_string guid
  let vs ← to_string value
  invoke P (some c) (.SetTimeEntryEndISO8601 gs vs)

/-- The function `toggl_set_time_entry_tags`. -/
def toggl_set_time_entry_tags {σ : Type} (P : Platform σ) (context : Ptr Handle)
    (guid value : Ptr String) : M σ Bool := do
  let _ ← poco_check_ptr guid
  let _ ← poco_check_ptr value
  let g ← c_str guid
  let v ← c_str value
  logger_debug ("toggl_set_time_entry_tags guid=" ++ g ++ ", value=" ++ v)
  let c ← app context
  let gs ← to_string guid
  let vs ← to_string value
  invoke P (some c) (.SetTimeEntryTags gs vs)

/-- The function `toggl_set_time_entry_billable`. -/
def toggl_set_time_entry_billable {σ : Type} (P : Platform σ) (context : Ptr Handle)
    (guid : Ptr String) (value : Bool) : M σ Bool := do
  let _ ← poco_check_ptr guid
  let g ← c_str guid
  logger_debug ("toggl_set_time_entry_billable guid=" ++ g ++ ", value=" ++ show_bool value)
  let c ← app context
  let gs ← to_string guid
  invoke P (some c) (.SetTimeEntryBillable gs value)

/-- The function `toggl_set_time_entry_description`. -/
def toggl_set_time_entry_description {σ : Type} (P : Platform σ) (context : Ptr Handle)
    (guid value : Ptr String) : M σ Bool := do
  let _ ← poco_check_ptr guid
  let _ ← poco_check_ptr value
  let g ← c_str guid
  let v ← c_str value
  logger_debug ("toggl_set_time_entry_description guid=" ++ g ++ ", value=" ++ v)
  let c ← app context
  let gs ← to_string guid
  let vs ← to_string value
  invoke P (some c) (.SetTimeEntryDescription gs vs)

/-- The function `toggl_stop`. -/
def toggl_stop {σ : Type} (P : Platform σ) (context : Ptr Handle) : M σ Bool := do
  logger_debug "toggl_stop"
  let c ← app context
  invoke P (some c) .Stop

/-- The function `toggl_discard_time_at`; `at_time` is the argument `at`. -/
def toggl_discard_time_at {σ : Type} (P : Platform σ) (context : Ptr Handle)
    (guid : Ptr String) (at_time : Nat) : M σ Bool := do
  let _ ← poco_check_ptr guid
  poco_assert (at_time != 0)
  logger_debug "toggl_discard_time_at"
  let c ← app context
  let gs ← to_string guid
  invoke P (some c) (.DiscardTimeAt gs at_time)

/-- The function `toggl_timeline_toggle_recording`. -/
def toggl_timeline_toggle_recording {σ : Type} (P : Platform σ) (context : Ptr Handle)
    (record_timeline : Bool) : M σ Bool := do
  logger_debug "toggl_timeline_toggle_recording"
  let c ← app context
  invoke P (some c) (.ToggleTimelineRecording record_timeline)

/-- The function `toggl_timeline_is_recording_enabled`. -/
def toggl_timeline_is_recording_enabled {σ : Type} (P : Platform σ) (context : Ptr Handle) :
    M σ Bool := do
  let c ← app context
  invoke P (some c) .IsTimelineRecordingEnabled

/-- The function `toggl_feedback_send`: none of the three text pointers is checked before
its characters are read. -/
def toggl_feedback_send {σ : Type} (P : Platform σ) (context : Ptr Handle)
    (topic details filename : Ptr String) : M σ Bool := do
  let t ← c_str topic
  let d ← c_str details
  logger_debug ("toggl_feedback_send topic=" ++ t ++ " details=" ++ d)
  let ts ← to_string topic
  let ds ← to_string details
  let fs ← to_string filename
  let feedback : Feedback := { topic := ts, details := ds, filename := fs }
  let c ← app context
  invoke P (some c) (.SendFeedback feedback)

/-- The function `toggl_set_update_channel`. -/
def toggl_set_update_channel {σ : Type} (P : Platform σ) (context : Ptr Handle)
    (update_channel : Ptr String) : M σ Bool := do
  let _ ← poco_check_ptr update_channel
  let c ← app context
  let v ← to_string update_channel
  invoke P (some c) (.SaveUpdateChannel v)

/-- The function `toggl_get_update_channel`. -/
def toggl_get_update_channel {σ : Type} (P : Platform σ) (context : Ptr Handle) :
    M σ (Ptr String) := do
  let update_channel : String := ""
  let c ← app context
  let r ← invoke P (some c) (.UpdateChannel update_channel)
  pure (copy_string r.2)

/-- The function `toggl_parse_duration_string_into_seconds`. -/
def toggl_parse_duration_string_into_seconds {σ : Type} (P : Platform σ)
    (duration_string : Ptr String) : M σ Int := do
  if duration_string.isNone then
    pure 0
  else
    let v ← to_string duration_string
    invoke P none (.Formatter_ParseDurationString v)

/-- The function `toggl_on_show_app`: `app(context)->UI()->OnDisplayApp(cb)`. -/
def toggl_on_show_app {σ : Type} (P : Platform σ) (context : Ptr Handle) (cb : Callback) :
    M σ Unit := do
  let c ← app context
  invoke P (some c) (.UI_OnDisplay .App cb)

/-- The function `toggl_on_error`: `app(context)->UI()->OnDisplayError(cb)`. -/
def toggl_on_error {σ : Type} (P : Platform σ) (context : Ptr Handle) (cb : Callback) :
    M σ Unit := do
  let c ← app context
  invoke P (some c) (.UI_OnDisplay .Error cb)

/-- The function `toggl_on_update`: `app(context)->UI()->OnDisplayUpdate(cb)`. -/
def toggl_on_update {σ : Type} (P : Platform σ) (context : Ptr Handle) (cb : Callback) :
    M σ Unit := do
  let c ← app context
  invoke P (some c) (.UI_OnDisplay .Update cb)

/-- The function `toggl_on_online_state`: `app(context)->UI()->OnDisplayOnlineState(cb)`. -/
def toggl_on_online_state {σ : Type} (P : Platform σ) (context : Ptr Handle) (cb : Callback) :
    M σ Unit := do
  let c ← app context
  invoke P (some c) (.UI_OnDisplay .OnlineState cb)

/-- The function `toggl_on_url`: `app(context)->UI()->OnDisplayURL(cb)`. -/
def toggl_on_url {σ : Type} (P : Platform σ) (context : Ptr Handle) (cb : Callback) :
    M σ Unit := do
  let c ← app context
  invoke P (some c) (.UI_OnDisplay .URL cb)

/-- The function `toggl_on_login`: `app(context)->UI()->OnDisplayLogin(cb)`. -/
def toggl_on_login {σ : Type} (P : Platform σ) (context : Ptr Handle) (cb : Callback) :
    M σ Unit := do
  let c ← app context
  invoke P (some c) (.UI_OnDisplay .Login cb)

/-- The function `toggl_on_reminder`: `app(context)->UI()->OnDisplayReminder(cb)`. -/
def toggl_on_reminder {σ : Type} (P : Platform σ) (context : Ptr Handle) (cb : Callback) :
    M σ Unit := do
  let c ← app context
  invoke P (some c) (.UI_OnDisplay .Reminder cb)

/-- The function `toggl_set_sleep`. -/
def toggl_set_sleep {σ : Type} (P : Platform σ) (context : Ptr Handle) : M σ Unit := do
  let c ← app context
  invoke P (some c) .SetSleep

/-- The function `toggl_set_wake`. -/
def toggl_set_wake {σ : Type} (P : Platform σ) (context : Ptr Handle) : M σ Unit := do
  if context.isNone then
    pure ()
  else
    let c ← app context
    invoke P (some c) .SetWake

/-- The function `toggl_set_online`. -/
def toggl_set_online {σ : Type} (P : Platform σ) (context : Ptr Handle) : M σ Unit := do
  if context.isNone then
    pure ()
  else
    let c ← app context
    invoke P (some c) .SetOnline

/-- The function `toggl_open_in_browser`. -/
def toggl_open_in_browser {σ : Type} (P : Platform σ) (context : Ptr Handle) : M σ Unit := do
  let c ← app context
  invoke P (some c) .OpenReportsInBrowser

/-- The function `toggl_get_support`. -/
def toggl_get_support {σ : Type} (P : Platform σ) (context : Ptr Handle) : M σ Unit := do
  let c ← app context
  invoke P (some c) (.UI_DisplayURL P.kSupportURL)

/-- The function `toggl_on_workspace_select`: `app(context)->UI()->OnDisplayWorkspaceSelect(cb)`. -/
def toggl_on_workspace_select {σ : Type} (P : Platform σ) (context : Ptr Handle) (cb : Callback) :
    M σ Unit := do
  let c ← app context
  invoke P (some c) (.UI_OnDisplay .WorkspaceSelect cb)

/-- The function `toggl_on_client_select`: `app(context)->UI()->OnDisplayClientSelect(cb)`. -/
def toggl_on_client_select {σ : Type} (P : Platform σ) (context : Ptr Handle) (cb : Callback) :
    M σ Unit := do
  let c ← app context
  invoke P (some c) (.UI_OnDisplay .ClientSelect cb)

/-- The function `toggl_on_tags`: `app(context)->UI()->OnDisplayTags(cb)`. -/
def toggl_on_tags {σ : Type} (P : Platform σ) (context : Ptr Handle) (cb : Callback) :
    M σ Unit := do
  let c ← app context
  invoke P (some c) (.UI_OnDisplay .Tags cb)

/-- The function `toggl_on_time_entry_list`: `app(context)->UI()->OnDisplayTimeEntryList(cb)`. -/
def toggl_on_time_entry_list {σ : Type} (P : Platform σ) (context : Ptr Handle) (cb : Callback) :
    M σ Unit := do
  let c ← app context
  invoke P (some c) (.UI_OnDisplay .TimeEntryList cb)

/-- The function `toggl_on_time_entry_autocomplete`: `app(context)->UI()->OnDisplayTimeEntryAutocomplete(cb)`. -/
def toggl_on_time_entry_autocomplete {σ : Type} (P : Platform σ) (context : Ptr Handle) (cb : Callback) :
    M σ Unit := do
  let c ← app context
  invoke P (some c) (.UI_OnDisplay .TimeEntryAutocomplete cb)

/-- The function `toggl_on_project_autocomplete`: `app(context)->UI()->OnDisplayProjectAutocomplete(cb)`. -/
def toggl_on_project_autocomplete {σ : Type} (P : Platform σ) (context : Ptr Handle) (cb : Callback) :
    M σ Unit := do
  let c ← app context
  invoke P (some c) (.UI_OnDisplay .ProjectAutocomplete cb)

/-- The function `toggl_on_time_entry_editor`: `app(context)->UI()->OnDisplayTimeEntryEditor(cb)`. -/
def toggl_on_time_entry_editor {σ : Type} (P : Platform σ) (context : Ptr Handle) (cb : Callback) :
    M σ Unit := do
  let c ← app context
  invoke P (some c) (.UI_OnDisplay .TimeEntryEditor cb)

/-- The function `toggl_on_settings`: `app(context)->UI()->OnDisplaySettings(cb)`. -/
def toggl_on_settings {σ : Type} (P : Platform σ) (context : Ptr Handle) (cb : Callback) :
    M σ Unit := do
  let c ← app context
  invoke P (some c) (.UI_OnDisplay .Settings cb)

/-- The function `toggl_on_timer_state`: `app(context)->UI()->OnDisplayTimerState(cb)`. -/
def toggl_on_timer_state {σ : Type} (P : Platform σ) (context : Ptr Handle) (cb : Callback) :
    M σ Unit := do
  let c ← app context
  invoke P (some c) (.UI_OnDisplay .TimerState cb)

/-- The function `toggl_on_idle_notification`: `app(context)->UI()->OnDisplayIdleNotification(cb)`. -/
def toggl_on_idle_notification {σ : Type} (P : Platform σ) (context : Ptr Handle) (cb : Callback) :
    M σ Unit := do
  let c ← app context
  invoke P (some c) (.UI_OnDisplay .IdleNotification cb)

/-- The function `toggl_debug`: the text pointer is not checked. -/
def toggl_debug {σ : Type} (text : Ptr String) : M σ Unit := do
  let v ← to_string text
  logger_debug v

/-- The function `toggl_check_view_struct_size`. -/
def toggl_check_view_struct_size {σ : Type} (P : Platform σ)
    (time_entry_view_item_size autocomplete_view_item_size view_item_size settings_size : Int) :
    M σ Unit := do
  let size := P.sizeof_TogglTimeEntryView
  if time_entry_view_item_size != size then
    logger_error "Invalid time entry view item struct size"
    poco_assert false
  let size := P.sizeof_TogglAutocompleteView
  if autocomplete_view_item_size != size then
    logger_error "Invalid autocomplete view item struct size"
    poco_assert false
  let size := P.sizeof_TogglGenericView
  if view_item_size != size then
    logger_error "Invalid view item struct size"
    poco_assert false
  let size := P.sizeof_TogglSettingsView
  if settings_size != size then
    logger_error "Invalid settings view item struct size"
    poco_assert false

/-- The function `toggl_set_idle_seconds`. -/
def toggl_set_idle_seconds {σ : Type} (P : Platform σ) (context : Ptr Handle)
    (idle_seconds : Nat) : M σ Unit := do
  let c ← app context
  invoke P (some c) (.SetIdleSeconds idle_seconds)

/-! ## All facade operations at once -/

/-- What a facade function hands back to the UI. -/
inductive Ret where
  | void
  | bool (b : Bool)
  /-- A `char_t *` result. -/
  | text (s : Ptr String)
  /-- The `void *` result of `toggl_context_init`. -/
  | handle (h : Ptr Handle)
  | int64 (n : Int)
  /-- The result of `toggl_parse_time`: the return value and the two output values. -/
  | parsed (b : Bool) (hours minutes : Int)

/-- One call of a facade function with its arguments: each constructor stands for the
function of that name. -/
inductive Invocation where
  | toggl_context_init (app_name app_version : Ptr String)
  | toggl_ui_start (context : Ptr Handle)
  | toggl_password_forgot (context : Ptr Handle)
  | toggl_context_clear (context : Ptr Handle)
  | toggl_set_settings (context : Ptr Handle) (use_idle_detection menubar_timer dock_icon on_top reminder : Bool)
  | toggl_set_proxy_settings (context : Ptr Handle) (use_proxy : Bool) (proxy_host : Ptr String) (proxy_port : Nat) (proxy_username proxy_password : Ptr String)
  | toggl_set_cacert_path (context : Ptr Handle) (path : Ptr String)
  | toggl_set_db_path (context : Ptr Handle) (path : Ptr String)
  | toggl_set_environment (context : Ptr Handle) (environment : Ptr String)
  | toggl_environment (context : Ptr Handle)
  | toggl_disable_update_check (context : Ptr Handle)
  | toggl_set_log_path (path : Ptr String)
  | toggl_set_log_level (level : Ptr String)
  | toggl_set_api_url (context : Ptr Handle) (api_url : Ptr String)
  | toggl_set_websocket_url (context : Ptr Handle) (websocket_url : Ptr String)
  | toggl_login (context : Ptr Handle) (email password : Ptr String)
  | toggl_google_login (context : Ptr Handle) (access_token : Ptr String)
  | toggl_logout (context : Ptr Handle)
  | toggl_clear_cache (context : Ptr Handle)
  | toggl_sync (context : Ptr Handle)
  | toggl_add_project (context : Ptr Handle) (time_entry_guid : Ptr String) (workspace_id client_id : Nat) (project_name : Ptr String) (is_private : Bool)
  | toggl_parse_time (input : Ptr String) (hours minutes : Ptr Int)
  | toggl_format_duration_in_seconds_hhmmss (duration_in_seconds : Int)
  | toggl_format_duration_in_seconds_hhmm (duration_in_seconds : Int)
  | toggl_start (context : Ptr Handle) (description duration : Ptr String) (task_id project_id : Nat)
  | toggl_continue (context : Ptr Handle) (guid : Ptr String)
  | toggl_view_time_entry_list (context : Ptr Handle)
  | toggl_edit (context : Ptr Handle) (guid : Ptr String) (edit_running_entry : Bool) (focused_field_name : Ptr String)
  | toggl_about (context : Ptr Handle)
  | toggl_edit_preferences (context : Ptr Handle)
  | toggl_continue_latest (context : Ptr Handle)
  | toggl_delete_time_entry (context : Ptr Handle) (guid : Ptr String)
  | toggl_set_time_entry_duration (context : Ptr Handle) (guid value : Ptr String)
  | toggl_set_time_entry_project (context : Ptr Handle) (guid : Ptr String) (task_id project_id : Nat) (project_guid : Ptr String)
  | toggl_set_time_entry_date (context : Ptr Handle) (guid : Ptr String) (unix_timestamp : Int)
  | toggl_set_time_entry_start (context : Ptr Handle) (guid value : Ptr String)
  | toggl_set_time_entry_end (context : Ptr Handle) (guid value : Ptr String)
  | toggl_set_time_entry_start_iso_8601 (context : Ptr Handle) (guid value : Ptr String)
  | toggl_set_time_entry_end_iso_8601 (context : Ptr Handle) (guid value : Ptr String)
  | toggl_set_time_entry_tags (context : Ptr Handle) (guid value : Ptr String)
  | toggl_set_time_entry_billable (context : Ptr Handle) (guid : Ptr String) (value : Bool)
  | toggl_set_time_entry_description (context : Ptr Handle) (guid value : Ptr String)
  | toggl_stop (context : Ptr Handle)
  | toggl_discard_time_at (context : Ptr Handle) (guid : Ptr String) (at_time : Nat)
  | toggl_timeline_toggle_recording (context : Ptr Handle) (record_timeline : Bool)
  | toggl_timeline_is_recording_enabled (context : Ptr Handle)
  | toggl_feedback_send (context : Ptr Handle) (topic details filename : Ptr String)
  | toggl_set_update_channel (context : Ptr Handle) (update_channel : Ptr String)
  | toggl_get_update_channel (context : Ptr Handle)
  | toggl_parse_duration_string_into_seconds (duration_string : Ptr String)
  | toggl_on_show_app (context : Ptr Handle) (cb : Callback)
  | toggl_on_error (context : Ptr Handle) (cb : Callback)
  | toggl_on_update (context : Ptr Handle) (cb : Callback)
  | toggl_on_online_state (context : Ptr Handle) (cb : Callback)
  | toggl_on_url (context : Ptr Handle) (cb : Callback)
  | toggl_on_login (context : Ptr Handle) (cb : Callback)
  | toggl_on_reminder (context : Ptr Handle) (cb : Callback)
  | toggl_set_sleep (context : Ptr Handle)
  | toggl_set_wake (context : Ptr Handle)
  | toggl_set_online (context : Ptr Handle)
  | toggl_open_in_browser (context : Ptr Handle)
  | toggl_get_support (context : Ptr Handle)
  | toggl_on_workspace_select (context : Ptr Handle) (cb : Callback)
  | toggl_on_client_select (context : Ptr Handle) (cb : Callback)
  | toggl_on_tags (context : Ptr Handle) (cb : Callback)
  | toggl_on_time_entry_list (context : Ptr Handle) (cb : Callback)
  | toggl_on_time_entry_autocomplete (context : Ptr Handle) (cb : Callback)
  | toggl_on_project_autocomplete (context : Ptr Handle) (cb : Callback)
  | toggl_on_time_entry_editor (context : Ptr Handle) (cb : Callback)
  | toggl_on_settings (context : Ptr Handle) (cb : Callback)
  | toggl_on_timer_state (context : Ptr Handle) (cb : Callback)
  | toggl_on_idle_notification (context : Ptr Handle) (cb : Callback)
  | toggl_debug (text : Ptr String)
  | toggl_check_view_struct_size (time_entry_view_item_size autocomplete_view_item_size view_item_size settings_size : Int)
  | toggl_set_idle_seconds (context : Ptr Handle) (idle_seconds : Nat)

/-- Run one facade call. -/
def run {σ : Type} (P : Platform σ) : Invocation → M σ Ret
  | .toggl_context_init app_name app_version => do let h ← toggl_context_init P app_name app_version; pure (.handle h)
  | .toggl_ui_start context => do let b ← toggl_ui_start P context; pure (.bool b)
  | .toggl_password_forgot context => do toggl_password_forgot P context; pure .void
  | .toggl_context_clear context => do toggl_context_clear P context; pure .void
  | .toggl_set_settings context use_idle_detection menubar_timer dock_icon on_top reminder => do let b ← toggl_set_settings P context use_idle_detection menubar_timer dock_icon on_top reminder; pure (.bool b)
  | .toggl_set_proxy_settings context use_proxy proxy_host proxy_port proxy_username proxy_password => do let b ← toggl_set_proxy_settings P context use_proxy proxy_host proxy_port proxy_username proxy_password; pure (.bool b)
  | .toggl_set_cacert_path context path => do toggl_set_cacert_path context path; pure .void
  | .toggl_set_db_path context path => do let b ← toggl_set_db_path P context path; pure (.bool b)
  | .toggl_set_environment context environment => do toggl_set_environment P context environment; pure .void
  | .toggl_environment context => do let s ← toggl_environment P context; pure (.text s)
  | .toggl_disable_update_check context => do toggl_disable_update_check P context; pure .void
  | .toggl_set_log_path path => do toggl_set_log_path P path; pure .void
  | .toggl_set_log_level level => do toggl_set_log_level P level; pure .void
  | .toggl_set_api_url context api_url => do toggl_set_api_url P context api_url; pure .void
  | .toggl_set_websocket_url context websocket_url => do toggl_set_websocket_url P context websocket_url; pure .void
  | .toggl_login context email password => do let b ← toggl_login P context email password; pure (.bool b)
  | .toggl_google_login context access_token => do let b ← toggl_google_login P context access_token; pure (.bool b)
  | .toggl_logout context => do let b ← toggl_logout P context; pure (.bool b)
  | .toggl_clear_cache context => do let b ← toggl_clear_cache P context; pure (.bool b)
  | .toggl_sync context => do toggl_sync P context; pure .void
  | .toggl_add_project context time_entry_guid workspace_id client_id project_name is_private => do let b ← toggl_add_project P context time_entry_guid workspace_id client_id project_name is_private; pure (.bool b)
  | .toggl_parse_time input hours minutes => do let r ← toggl_parse_time P input hours minutes; pure (.parsed r.1 r.2.1 r.2.2)
  | .toggl_format_duration_in_seconds_hhmmss duration_in_seconds => do let s ← toggl_format_duration_in_seconds_hhmmss P duration_in_seconds; pure (.text s)
  | .toggl_format_duration_in_seconds_hhmm duration_in_seconds => do let s ← toggl_format_duration_in_seconds_hhmm P duration_in_seconds; pure (.text s)
  | .toggl_start context description duration task_id project_id => do let b ← toggl_start P context description duration task_id project_id; pure (.bool b)
  | .toggl_continue context guid => do let b ← toggl_continue P context guid; pure (.bool b)
  | .toggl_view_time_entry_list context => do toggl_view_time_entry_list P context; pure .void
  | .toggl_edit context guid edit_running_entry focused_field_name => do toggl_edit P context guid edit_running_entry focused_field_name; pure .void
  | .toggl_about context => do toggl_about P context; pure .void
  | .toggl_edit_preferences context => do toggl_edit_preferences P context; pure .void
  | .toggl_continue_latest context => do let b ← toggl_continue_latest P context; pure (.bool b)
  | .toggl_delete_time_entry context guid => do let b ← toggl_delete_time_entry P context guid; pure (.bool b)
  | .toggl_set_time_entry_duration context guid value => do let b ← toggl_set_time_entry_duration P context guid value; pure (.bool b)
  | .toggl_set_time_entry_project context guid task_id project_id project_guid => do let b ← toggl_set_time_entry_project P context guid task_id project_id project_guid; pure (.bool b)
  | .toggl_set_time_entry_date context guid unix_timestamp => do let b ← toggl_set_time_entry_date P context guid unix_timestamp; pure (.bool b)
  | .toggl_set_time_entry_start context guid value => do let b ← toggl_set_time_entry_start P context guid value; pure (.bool b)
  | .toggl_set_time_entry_end context guid value => do let b ← toggl_set_time_entry_end P context guid value; pure (.bool b)
  | .toggl_set_time_entry_start_iso_8601 context guid value => do let b ← toggl_set_time_entry_start_iso_8601 P context guid value; pure (.bool b)
  | .toggl_set_time_entry_end_iso_8601 context guid value => do let b ← toggl_set_time_entry_end_iso_8601 P context guid value; pure (.bool b)
  | .toggl_set_time_entry_tags context guid value => do let b ← toggl_set_time_entry_tags P context guid value; pure (.bool b)
  | .toggl_set_time_entry_billable context guid value => do let b ← toggl_set_time_entry_billable P context guid value; pure (.bool b)
  | .toggl_set_time_entry_description context guid value => do let b ← toggl_set_time_entry_description P context guid value; pure (.bool b)
  | .toggl_stop context => do let b ← toggl_stop P context; pure (.bool b)
  | .toggl_discard_time_at context guid at_time => do let b ← toggl_discard_time_at P context guid at_time; pure (.bool b)
  | .toggl_timeline_toggle_recording context record_timeline => do let b ← toggl_timeline_toggle_recording P context record_timeline; pure (.bool b)
  | .toggl_timeline_is_recording_enabled context => do let b ← toggl_timeline_is_recording_enabled P context; pure (.bool b)
  | .toggl_feedback_send context topic details filename => do let b ← toggl_feedback_send P context topic details filename; pure (.bool b)
  | .toggl_set_update_channel context update_channel => do let b ← toggl_set_update_channel P context update_channel; pure (.bool b)
  | .toggl_get_update_channel context => do let s ← toggl_get_update_channel P context; pure (.text s)
  | .toggl_parse_duration_string_into_seconds duration_string => do let n ← toggl_parse_duration_string_into_seconds P duration_string; pure (.int64 n)
  | .toggl_on_show_app context cb => do toggl_on_show_app P context cb; pure .void
  | .toggl_on_error context cb => do toggl_on_error P context cb; pure .void
  | .toggl_on_update context cb => do toggl_on_update P context cb; pure .void
  | .toggl_on_online_state context cb => do toggl_on_online_state P context cb; pure .void
  | .toggl_on_url context cb => do toggl_on_url P context cb; pure .void
  | .toggl_on_login context cb => do toggl_on_login P context cb; pure .void
  | .toggl_on_reminder context cb => do toggl_on_reminder P context cb; pure .void
  | .toggl_set_sleep context => do toggl_set_sleep P context; pure .void
  | .toggl_set_wake context => do toggl_set_wake P context; pure .void
  | .toggl_set_online context => do toggl_set_online P context; pure .void
  | .toggl_open_in_browser context => do toggl_open_in_browser P context; pure .void
  | .toggl_get_support context => do toggl_get_support P context; pure .void
  | .toggl_on_workspace_select context cb => do toggl_on_workspace_select P context cb; pure .void
  | .toggl_on_client_select context cb => do toggl_on_client_select P context cb; pure .void
  | .toggl_on_tags context cb => do toggl_on_tags P context cb; pure .void
  | .toggl_on_time_entry_list context cb => do toggl_on_time_entry_list P context cb; pure .void
  | .toggl_on_time_entry_autocomplete context cb => do toggl_on_time_entry_autocomplete P context cb; pure .void
  | .toggl_on_project_autocomplete context cb => do toggl_on_project_autocomplete P context cb; pure .void
  | .toggl_on_time_entry_editor context cb => do toggl_on_time_entry_editor P context cb; pure .void
  | .toggl_on_settings context cb => do toggl_on_settings P context cb; pure .void
  | .toggl_on_timer_state context cb => do toggl_on_timer_state P context cb; pure .void
  | .toggl_on_idle_notification context cb => do toggl_on_idle_notification P context cb; pure .void
  | .toggl_debug text => do toggl_debug text; pure .void
  | .toggl_check_view_struct_size time_entry_view_item_size autocomplete_view_item_size view_item_size settings_size => do toggl_check_view_struct_size P time_entry_view_item_size autocomplete_view_item_size view_item_size settings_size; pure .void
  | .toggl_set_idle_seconds context idle_seconds => do toggl_set_idle_seconds P context idle_seconds; pure .void

/-- The engine handle passed to a facade call, for the functions that take one. -/
def Invocation.handleArg : Invocation → Option (Ptr Handle)
  | .toggl_ui_start context => some context
  | .toggl_password_forgot context => some context
  | .toggl_context_clear context => some context
  | .toggl_set_settings context _ _ _ _ _ => some context
  | .toggl_set_proxy_settings context _ _ _ _ _ => some context
  | .toggl_set_cacert_path context _ => some context
  | .toggl_set_db_path context _ => some context
  | .toggl_set_environment context _ => some context
  | .toggl_environment context => some context
  | .toggl_disable_update_check context => some context
  | .toggl_set_api_url context _ => some context
  | .toggl_set_websocket_url context _ => some context
  | .toggl_login context _ _ => some context
  | .toggl_google_login context _ => some context
  | .toggl_logout context => some context
  | .toggl_clear_cache context => some context
  | .toggl_sync context => some context
  | .toggl_add_project context _ _ _ _ _ => some context
  | .toggl_start context _ _ _ _ => some context
  | .toggl_continue context _ => some context
  | .toggl_view_time_entry_list context => some context
  | .toggl_edit context _ _ _ => some context
  | .toggl_about context => some context
  | .toggl_edit_preferences context => some context
  | .toggl_continue_latest context => some context
  | .toggl_delete_time_entry context _ => some context
  | .toggl_set_time_entry_duration context _ _ => some context
  | .toggl_set_time_entry_project context _ _ _ _ => some context
  | .toggl_set_time_entry_date context _ _ => some context
  | .toggl_set_time_entry_start context _ _ => some context
  | .toggl_set_time_entry_end context _ _ => some context
  | .toggl_set_time_entry_start_iso_8601 context _ _ => some context
  | .toggl_set_time_entry_end_iso_8601 context _ _ => some context
  | .toggl_set_time_entry_tags context _ _ => some context
  | .toggl_set_time_entry_billable context _ _ => some context
  | .toggl_set_time_entry_description context _ _ => some context
  | .toggl_stop context => some context
  | .toggl_discard_time_at context _ _ => some context
  | .toggl_timeline_toggle_recording context _ => some context
  | .toggl_timeline_is_recording_enabled context => some context
  | .toggl_feedback_send context _ _ _ => some context
  | .toggl_set_update_channel context _ => some context
  | .toggl_get_update_channel context => some context
  | .toggl_on_show_app context _ => some context
  | .toggl_on_error context _ => some context
  | .toggl_on_update context _ => some context
  | .toggl_on_online_state context _ => some context
  | .toggl_on_url context _ => some context
  | .toggl_on_login context _ => some context
  | .toggl_on_reminder context _ => some context
  | .toggl_set_sleep context => some context
  | .toggl_set_wake context => some context
  | .toggl_set_online context => some context
  | .toggl_open_in_browser context => some context
  | .toggl_get_support context => some context
  | .toggl_on_workspace_select context _ => some context
  | .toggl_on_client_select context _ => some context
  | .toggl_on_tags context _ => some context
  | .toggl_on_time_entry_list context _ => some context
  | .toggl_on_time_entry_autocomplete context _ => some context
  | .toggl_on_project_autocomplete context _ => some context
  | .toggl_on_time_entry_editor context _ => some context
  | .toggl_on_settings context _ => some context
  | .toggl_on_timer_state context _ => some context
  | .toggl_on_idle_notification context _ => some context
  | .toggl_set_idle_seconds context _ => some context
  | _ => none

/-- The text (`char_t *`) arguments of a facade call, in order. -/
def Invocation.texts : Invocation → List (Ptr String)
  | .toggl_context_init app_name app_version => [app_name, app_version]
  | .toggl_set_proxy_settings _ _ proxy_host _ proxy_username proxy_password => [proxy_host, proxy_username, proxy_password]
  | .toggl_set_cacert_path _ path => [path]
  | .toggl_set_db_path _ path => [path]
  | .toggl_set_environment _ env => [env]
  | .toggl_set_log_path path => [path]
  | .toggl_set_log_level level => [level]
  | .toggl_set_api_url _ api_url => [api_url]
  | .toggl_set_websocket_url _ websocket_url => [websocket_url]
  | .toggl_login _ email password => [email, password]
  | .toggl_google_login _ access_token => [access_token]
  | .toggl_add_project _ time_entry_guid _ _ project_name _ => [time_entry_guid, project_name]
  | .toggl_parse_time input _ _ => [input]
  | .toggl_start _ description duration _ _ => [description, duration]
  | .toggl_continue _ guid => [guid]
  | .toggl_edit _ guid _ focused_field_name => [guid, focused_field_name]
  | .toggl_delete_time_entry _ guid => [guid]
  | .toggl_set_time_entry_duration _ guid value => [guid, value]
  | .toggl_set_time_entry_project _ guid _ _ project_guid => [guid, project_guid]
  | .toggl_set_time_entry_date _ guid _ => [guid]
  | .toggl_set_time_entry_start _ guid value => [guid, value]
  | .toggl_set_time_entry_end _ guid value => [guid, value]
  | .toggl_set_time_entry_start_iso_8601 _ guid value => [guid, value]
  | .toggl_set_time_entry_end_iso_8601 _ guid value => [guid, value]
  | .toggl_set_time_entry_tags _ guid value => [guid, value]
  | .toggl_set_time_entry_billable _ guid _ => [guid]
  | .toggl_set_time_entry_description _ guid value => [guid, value]
  | .toggl_discard_time_at _ guid _ => [guid]
  | .toggl_feedback_send _ topic details filename => [topic, details, filename]
  | .toggl_set_update_channel _ update_channel => [update_channel]
  | .toggl_parse_duration_string_into_seconds duration_string => [duration_string]
  | .toggl_debug text => [text]
  | _ => []

/-- The arguments other than the handle are valid: no text pointer is null, and the time
passed to `toggl_discard_time_at` is not zero. -/
def Invocation.othersValid : Invocation → Bool
  | .toggl_discard_time_at _ guid at_time => guid.isSome && at_time != 0
  | i => i.texts.all Option.isSome

/-- Whether the call is tolerant of a null handle: `toggl_set_wake` and `toggl_set_online`
return at once on one. -/
def Invocation.nullTolerant : Invocation → Bool
  | .toggl_set_wake _ => true
  | .toggl_set_online _ => true
  | _ => false

/-- Whether the function takes a handle it never uses: `toggl_set_cacert_path`. -/
def Invocation.handleUnused : Invocation → Bool
  | .toggl_set_cacert_path _ _ => true
  | _ => false

/-- Number of error lines in a log. -/
def errorCount (log : List (Level × String)) : Nat :=
  (log.filter (fun l => l.1 == Level.error)).length

/-- How many of the four sizes differ from the compiled size of their struct. -/
def mismatches {σ : Type} (P : Platform σ) (a b c d : Int) : Nat :=
  (if a != P.sizeof_TogglTimeEntryView then 1 else 0) +
  (if b != P.sizeof_TogglAutocompleteView then 1 else 0) +
  (if c != P.sizeof_TogglGenericView then 1 else 0) +
  (if d != P.sizeof_TogglSettingsView then 1 else 0)

/-- The error line of the first struct type, in argument order, whose size differs from
the compiled one; `none` when all four sizes agree. -/
def firstMismatch {σ : Type} (P : Platform σ) (a b c d : Int) : Option String :=
  if a != P.sizeof_TogglTimeEntryView then some "Invalid time entry view item struct size"
  else if b != P.sizeof_TogglAutocompleteView then
    some "Invalid autocomplete view item struct size"
  else if c != P.sizeof_TogglGenericView then some "Invalid view item struct size"
  else if d != P.sizeof_TogglSettingsView then some "Invalid settings view item struct size"
  else none

/-- The fixed answers of the reference engine. -/
structure Answers where
  /-- The result of every boolean-returning engine method. -/
  ok : Bool
  /-- What `AddProject` leaves behind its output pointer. -/
  project : Ptr Project
  /-- The result of every string-returning engine method. -/
  text : String
  /-- The seconds `ParseDurationString` yields. -/
  seconds : Int
  /-- The address `new toggl::Context` yields. -/
  address : Handle

/-- The answer of the reference engine to each call. -/
def Answers.reply (a : Answers) : (c : Call) → c.Reply
  | .StartEvents => a.ok
  | .SetSettings _ => a.ok
  | .SetProxySettings _ _ => a.ok
  | .SetDBPath _ => a.ok
  | .Login _ _ => a.ok
  | .GoogleLogin _ => a.ok
  | .Logout => a.ok
  | .ClearCache => a.ok
  | .Start _ _ _ _ => a.ok
  | .Continue _ => a.ok
  | .ContinueLatest => a.ok
  | .DeleteTimeEntryByGUID _ => a.ok
  | .SetTimeEntryDuration _ _ => a.ok
  | .SetTimeEntryProject _ _ _ _ => a.ok
  | .SetTimeEntryDate _ _ => a.ok
  | .SetTimeEntryStart _ _ => a.ok
  | .SetTimeEntryStop _ _ => a.ok
  | .SetTimeEntryStartISO8601 _ _ => a.ok
  | .SetTimeEntryEndISO8601 _ _ => a.ok
  | .SetTimeEntryTags _ _ => a.ok
  | .SetTimeEntryBillable _ _ => a.ok
  | .SetTimeEntryDescription _ _ => a.ok
  | .Stop => a.ok
  | .DiscardTimeAt _ _ => a.ok
  | .ToggleTimelineRecording _ => a.ok
  | .IsTimelineRecordingEnabled => a.ok
  | .SendFeedback _ => a.ok
  | .SaveUpdateChannel _ => a.ok
  | .AddProject _ _ _ _ => (a.ok, a.project)
  | .UpdateChannel _ => (a.ok, a.text)
  | .Environment => a.text
  | .NewContext _ _ => a.address
  | .Formatter_ParseTimeInput _ hours minutes => (a.ok, hours, minutes)
  | .Formatter_FormatDurationInSecondsHHMMSS _ => a.text
  | .Formatter_FormatDurationInSecondsHHMM _ => a.text
  | .Formatter_ParseDurationString _ => a.seconds
  | .UI_DisplayURL _ => ()
  | .SetQuit => ()
  | .Shutdown => ()
  | .Delete => ()
  | .SetEnvironment _ => ()
  | .DisableUpdateCheck => ()
  | .SetAPIURL _ => ()
  | .SetTimelineUploadURL _ => ()
  | .SetWebSocketClientURL _ => ()
  | .Sync => ()
  | .DisplayTimeEntryList _ => ()
  | .Edit _ _ _ => ()
  | .About => ()
  | .DisplaySettings _ => ()
  | .UI_OnDisplay _ _ => ()
  | .SetSleep => ()
  | .SetWake => ()
  | .SetOnline => ()
  | .OpenReportsInBrowser => ()
  | .SetIdleSeconds _ => ()
  | .Context_SetLogPath _ => ()
  | .RootLogger_setLevel _ => ()

/-- Modelled from the spec: the callback registry of the UI object (its class is not in the
sources).  One slot per event kind, holding at most one handler. -/
abbrev Registry := EventKind → Option Callback

/-- Modelled from the spec: the setter `OnDisplay<kind>(cb)` of the UI object replaces the
handler registered for that kind and touches no other slot. -/
def Registry.register (r : Registry) (kind : EventKind) (cb : Callback) : Registry :=
  fun k => if k = kind then some cb else r k

/-- State of the reference engine: the persisted settings and the callback slots of each
instance. -/
structure EngineState where
  settings : Handle → Option Settings
  slots : Handle → Registry

/-- Modelled from the spec: how the reference engine changes state.  `SetSettings` persists
the snapshot it receives, `OnDisplay<kind>` fills the slot of its kind; both on the instance
the method is invoked on. -/
def EngineState.step (s : EngineState) (target : Option Handle) : Call → EngineState
  | .SetSettings v =>
    match target with
    | some h => { s with settings := fun k => if k = h then some v else s.settings k }
    | none => s
  | .UI_OnDisplay kind cb =>
    match target with
    | some h => { s with slots := fun k => if k = h then (s.slots k).register kind cb
                                           else s.slots k }
    | none => s
  | _ => s

/-- The reference engine. -/
def referenceEngine (a : Answers) (target : Option Handle) (c : Call) (s : EngineState) :
    c.Reply × EngineState :=
  (a.reply c, s.step target c)

/-- A platform over the reference engine, with sample constants. -/
def referencePlatform (a : Answers) : Platform EngineState where
  engine := referenceEngine a
  kAPIURL := "https://api.example"
  kTimelineUploadURL := "https://timeline.example"
  kWebSocketURL := "https://stream.example"
  kLostPasswordURL := "https://lost.example"
  kSupportURL := "https://support.example"
  sizeof_TogglTimeEntryView := 200
  sizeof_TogglAutocompleteView := 100
  sizeof_TogglGenericView := 48
  sizeof_TogglSettingsView := 8

/-- An engine whose methods all succeed and whose `AddProject` creates project 7. -/
def succeeding : Answers :=
  { ok := true, project := some { ID := 7, GUID := "p-guid" }, text := "stable",
    seconds := 90, address := 1 }

/-- A fresh engine state: nothing persisted, no handler registered. -/
def EngineState.fresh : EngineState :=
  { settings := fun _ => none, slots := fun _ _ => none }

/-- A fresh world. -/
def World.fresh : World EngineState :=
  { eng := EngineState.fresh, trace := [], log := [], CACertPath := "" }

/-- How many fatal assertion failures (`poco_assert`) an outcome carries: a call that
aborts on a failed assertion raised one, any other outcome none. -/
def assertionsRaised {α : Type} : Except Abort α → Nat
  | .error .assertion => 1
  | _ => 0

/-! ## Theorems -/

/-- Appending one error line raises the error count by one. -/
theorem errorCount_append_error (log : List (Level × String)) (msg : String) :
    errorCount (log ++ [(Level.error, msg)]) = errorCount log + 1 := by
  simp [errorCount, List.filter_append]

/-- Claim C1: `toggl_check_view_struct_size` raises the fatal assertion exactly when at
least one of its four arguments differs from the compiled size of the corresponding struct
(time entry view, autocomplete view, generic view, settings view, in argument order); called
with the four compiled sizes it returns normally and leaves the world, its log included,
unchanged. -/
theorem check_view_struct_size_asserts_iff_mismatch {σ : Type} (P : Platform σ)
    (a b c d : Int) (w : World σ) :
    ((toggl_check_view_struct_size P a b c d w).1 = .error .assertion ↔
      (a ≠ P.sizeof_TogglTimeEntryView ∨ b ≠ P.sizeof_TogglAutocompleteView ∨
        c ≠ P.sizeof_TogglGenericView ∨ d ≠ P.sizeof_TogglSettingsView)) ∧
    ((toggl_check_view_struct_size P a b c d w).1 = .ok () ↔
      (a = P.sizeof_TogglTimeEntryView ∧ b = P.sizeof_TogglAutocompleteView ∧
        c = P.sizeof_TogglGenericView ∧ d = P.sizeof_TogglSettingsView)) ∧
    toggl_check_view_struct_size P P.sizeof_TogglTimeEntryView P.sizeof_TogglAutocompleteView
      P.sizeof_TogglGenericView P.sizeof_TogglSettingsView w = (.ok (), w) := by
  refine ⟨?_, ?_, ?_⟩
  · by_cases ha : a = P.sizeof_TogglTimeEntryView <;>
    by_cases hb : b = P.sizeof_TogglAutocompleteView <;>
    by_cases hc : c = P.sizeof_TogglGenericView <;>
    by_cases hd : d = P.sizeof_TogglSettingsView <;>
    simp [toggl_check_view_struct_size, ha, hb, hc, hd, bind, pure, M.bind, M.pure,
      poco_assert, abort, logger_error]
  · by_cases ha : a = P.sizeof_TogglTimeEntryView <;>
    by_cases hb : b = P.sizeof_TogglAutocompleteView <;>
    by_cases hc : c = P.sizeof_TogglGenericView <;>
    by_cases hd : d = P.sizeof_TogglSettingsView <;>
    simp [toggl_check_view_struct_size, ha, hb, hc, hd, bind, pure, M.bind, M.pure,
      poco_assert, abort, logger_error]
  · simp [toggl_check_view_struct_size, bind, pure, M.bind, M.pure]

/-- Claim C2, refuted as stated: with the compiled sizes 200, 100, 48 and 8, the call
`toggl_check_view_struct_size(0, 0, 48, 8)` has two mismatched arguments but raises one
assertion failure and writes one error line: the first failed assertion ends the call. -/
theorem check_view_struct_size_two_mismatches_one_assertion :
    mismatches (referencePlatform succeeding) 0 0 48 8 = 2 ∧
    assertionsRaised
      (toggl_check_view_struct_size (referencePlatform succeeding) 0 0 48 8 World.fresh).1 = 1 ∧
    (toggl_check_view_struct_size (referencePlatform succeeding) 0 0 48 8 World.fresh).2.log =
      [(Level.error, "Invalid time entry view item struct size")] := by
  refine ⟨by decide, by rfl, by rfl⟩

/-- Claim C2, amended: for every combination of the four sizes the fatal assertion path (one
error line, then the failed assertion) is taken once when at least one size is wrong, and
then for the first mismatched struct type in argument order only, and not at all when the
four sizes are right: the number of assertion failures raised, and of error lines written,
is the smaller of 1 and the number of mismatched arguments. -/
theorem check_view_struct_size_asserts_once {σ : Type} (P : Platform σ)
    (a b c d : Int) (w : World σ) :
    assertionsRaised (toggl_check_view_struct_size P a b c d w).1
      = min 1 (mismatches P a b c d) ∧
    errorCount (toggl_check_view_struct_size P a b c d w).2.log
      = errorCount w.log + min 1 (mismatches P a b c d) ∧
    (toggl_check_view_struct_size P a b c d w).2.log
      = w.log ++ (firstMismatch P a b c d).toList.map (fun m => (Level.error, m)) := by
  by_cases ha : a = P.sizeof_TogglTimeEntryView <;>
  by_cases hb : b = P.sizeof_TogglAutocompleteView <;>
  by_cases hc : c = P.sizeof_TogglGenericView <;>
  by_cases hd : d = P.sizeof_TogglSettingsView <;>
  simp [toggl_check_view_struct_size, ha, hb, hc, hd, bind, pure, M.bind, M.pure,
    poco_assert, abort, logger_error, assertionsRaised, mismatches, firstMismatch,
    errorCount_append_error]

/-- Claim C4: `toggl_set_wake` and `toggl_set_online` called with a null handle return
normally and leave the whole world unchanged (no assertion, no engine operation).  Called with
a non-null handle each returns normally after invoking exactly one engine operation, `SetWake`
respectively `SetOnline`, on that handle: the engine is in the state that this one operation
leaves, the trace has grown by this one invocation, and nothing else has changed. -/
theorem set_wake_set_online_null_tolerant {σ : Type} (P : Platform σ) (h : Handle)
    (w : World σ) :
    toggl_set_wake P none w = (.ok (), w) ∧
    toggl_set_online P none w = (.ok (), w) ∧
    toggl_set_wake P (some h) w
      = (.ok (), { eng := (P.engine (some h) .SetWake w.eng).2
                   trace := w.trace ++ [⟨some h, .SetWake, ()⟩]
                   log := w.log
                   CACertPath := w.CACertPath }) ∧
    toggl_set_online P (some h) w
      = (.ok (), { eng := (P.engine (some h) .SetOnline w.eng).2
                   trace := w.trace ++ [⟨some h, .SetOnline, ()⟩]
                   log := w.log
                   CACertPath := w.CACertPath }) := by
  refine ⟨?_, ?_, ?_, ?_⟩ <;>
  simp [toggl_set_wake, toggl_set_online, app, poco_check_ptr, invoke, bind, pure, M.bind,
    M.pure]

/-- Claim C8: for every non-null handle `toggl_context_clear` returns normally after exactly
three steps on the engine instance, in this order: `SetQuit`, `Shutdown`, release of the
instance.  The engine is in the state reached by applying these three operations one after
the other, each to the state the one before left, so the release acts on an engine that has
been told to quit and has shut down; the trace has grown by these three invocations, and
nothing else has changed. -/
theorem context_clear_quit_shutdown_release {σ : Type} (P : Platform σ) (h : Handle)
    (w : World σ) :
    toggl_context_clear P (some h) w
      = (.ok (),
         { eng := (P.engine (some h) .Delete
                    (P.engine (some h) .Shutdown
                      (P.engine (some h) .SetQuit w.eng).2).2).2
           trace := w.trace ++
             [⟨some h, .SetQuit, ()⟩, ⟨some h, .Shutdown, ()⟩, ⟨some h, .Delete, ()⟩]
           log := w.log
           CACertPath := w.CACertPath }) := by
  simp [toggl_context_clear, app, poco_check_ptr, invoke, bind, pure, M.bind, M.pure]

/-- A null required pointer fails `poco_check_ptr`. -/
theorem poco_check_ptr_none {σ α : Type} :
    (poco_check_ptr (none : Ptr α) : M σ α) = abort .nullPointer := rfl

/-- A required pointer that is not null passes `poco_check_ptr`. -/
theorem poco_check_ptr_of_isSome {σ α : Type} {p : Ptr α} (h : p.isSome = true) :
    (poco_check_ptr p : M σ α) = M.pure (p.get h) := by
  cases p with
  | none => exact absurd h (by simp)
  | some a => rfl

/-- The characters behind a pointer that is not null can be read. -/
theorem c_str_of_isSome {σ : Type} {p : Ptr String} (h : p.isSome = true) :
    (c_str p : M σ String) = M.pure (p.get h) := by
  cases p with
  | none => exact absurd h (by simp)
  | some a => rfl

/-- Claim C3, refuted as stated: `toggl_set_cacert_path` takes an engine handle and is not
one of the two null-tolerant lifecycle operations, yet called with a null handle and a valid
path it returns normally, having stored the path, and raises no assertion. -/
theorem set_cacert_path_null_handle_returns :
    (Invocation.toggl_set_cacert_path none (some "ca.pem")).handleArg = some none ∧
    (Invocation.toggl_set_cacert_path none (some "ca.pem")).othersValid = true ∧
    (Invocation.toggl_set_cacert_path none (some "ca.pem")).nullTolerant = false ∧
    (run (referencePlatform succeeding) (.toggl_set_cacert_path none (some "ca.pem"))
        World.fresh).1 = .ok .void ∧
    (run (referencePlatform succeeding) (.toggl_set_cacert_path none (some "ca.pem"))
        World.fresh).2.CACertPath = "ca.pem" := by
  refine ⟨by rfl, by rfl, by rfl, by rfl, by rfl⟩

set_option maxHeartbeats 4000000 in
/-- Claim C3, amended: every facade operation that takes an engine handle, other than the
null-tolerant `toggl_set_wake` and `toggl_set_online` and other than `toggl_set_cacert_path`,
which never uses its handle, ends in the fatal null-pointer assertion when called with a null
handle and all other arguments valid, and has invoked no engine operation by then.
`toggl_set_cacert_path` with a null handle and a non-null path stores the path in the global
CA certificate setting and returns normally. -/
theorem null_handle_raises_null_pointer_assertion {σ : Type} (P : Platform σ)
    (i : Invocation) (w : World σ) (path : String)
    (hnull : i.handleArg = some none) (hvalid : i.othersValid = true)
    (htolerant : i.nullTolerant = false) (hunused : i.handleUnused = false) :
    ((run P i w).1 = .error .nullPointer ∧ (run P i w).2.trace = w.trace) ∧
    (toggl_set_cacert_path none (some path) w = (.ok (), { w with CACertPath := path })) := by
  refine ⟨?_, by rfl⟩
  cases i <;>
  simp [Invocation.handleArg, Invocation.nullTolerant, Invocation.handleUnused,
    Invocation.othersValid, Invocation.texts] at hnull htolerant hunused hvalid <;>
  subst hnull <;>
  simp [run, toggl_context_init, toggl_ui_start, toggl_password_forgot, toggl_context_clear,
    toggl_set_settings, toggl_set_proxy_settings, toggl_set_cacert_path, toggl_set_db_path,
    toggl_set_environment, toggl_environment, toggl_disable_update_check, toggl_set_log_path,
    toggl_set_log_level, toggl_set_api_url, toggl_set_websocket_url, toggl_login,
    toggl_google_login, toggl_logout, toggl_clear_cache, toggl_sync, toggl_add_project,
    toggl_parse_time, toggl_format_duration_in_seconds_hhmmss,
    toggl_format_duration_in_seconds_hhmm, toggl_start, toggl_continue,
    toggl_view_time_entry_list, toggl_edit, toggl_about, toggl_edit_preferences,
    toggl_continue_latest, toggl_delete_time_entry, toggl_set_time_entry_duration,
    toggl_set_time_entry_project, toggl_set_time_entry_date, toggl_set_time_entry_start,
    toggl_set_time_entry_end, toggl_set_time_entry_start_iso_8601,
    toggl_set_time_entry_end_iso_8601, toggl_set_time_entry_tags, toggl_set_time_entry_billable,
    toggl_set_time_entry_description, toggl_stop, toggl_discard_time_at,
    toggl_timeline_toggle_recording, toggl_timeline_is_recording_enabled, toggl_feedback_send,
    toggl_set_update_channel, toggl_get_update_channel,
    toggl_parse_duration_string_into_seconds, toggl_on_show_app, toggl_on_error,
    toggl_on_update, toggl_on_online_state, toggl_on_url, toggl_on_login, toggl_on_reminder,
    toggl_set_sleep, toggl_set_wake, toggl_set_online, toggl_open_in_browser, toggl_get_support,
    toggl_on_workspace_select, toggl_on_client_select, toggl_on_tags, toggl_on_time_entry_list,
    toggl_on_time_entry_autocomplete, toggl_on_project_autocomplete, toggl_on_time_entry_editor,
    toggl_on_settings, toggl_on_timer_state, toggl_on_idle_notification, toggl_debug,
    toggl_check_view_struct_size, toggl_set_idle_seconds,
    app, poco_check_ptr_of_isSome, c_str_of_isSome, poco_check_ptr_none, to_string,
    logger_debug, abort, poco_assert, invoke, bind, pure, M.bind, M.pure, hvalid]

/-- Claim C3 at concrete calls: `toggl_set_db_path` and `toggl_context_clear` with a null
handle end in the fatal null-pointer assertion. -/
theorem null_handle_raises_null_pointer_assertion_witness :
    (Invocation.toggl_set_db_path none (some "toggl.db")).handleArg = some none ∧
    (Invocation.toggl_set_db_path none (some "toggl.db")).othersValid = true ∧
    (run (referencePlatform succeeding) (.toggl_set_db_path none (some "toggl.db"))
        World.fresh).1 = .error .nullPointer ∧
    (run (referencePlatform succeeding) (.toggl_context_clear none) World.fresh).1
      = .error .nullPointer :=
  ⟨rfl, rfl,
   (null_handle_raises_null_pointer_assertion (referencePlatform succeeding)
      (.toggl_set_db_path none (some "toggl.db")) World.fresh "" rfl rfl rfl rfl).1.1,
   (null_handle_raises_null_pointer_assertion (referencePlatform succeeding)
      (.toggl_context_clear none) World.fresh "" rfl rfl rfl rfl).1.1⟩

/-- Claim C9, the code at the failing inputs: `toggl_feedback_send` with a null `topic`,
`toggl_add_project` with a null `project_name` and `toggl_debug` with a null `text` raise no
null-pointer assertion; the null pointer reaches the string conversion unchecked, which is
undefined behaviour. -/
theorem null_text_reaches_string_conversion {σ : Type} (P : Platform σ) (h : Handle)
    (details filename : Ptr String) (time_entry_guid : String) (workspace_id client_id : Nat)
    (is_private : Bool) (w : World σ) :
    toggl_feedback_send P (some h) none details filename w
      = (.error .undefinedBehaviour, w) ∧
    toggl_add_project P (some h) (some time_entry_guid) workspace_id client_id none
        is_private w
      = (.error .undefinedBehaviour, w) ∧
    toggl_debug none w = (.error .undefinedBehaviour, w) := by
  refine ⟨by rfl, by rfl, by rfl⟩

end Toggl
